import Mathlib

/-!
Shallow embedding of `src/main.py` (Telegram application bot).

The questionnaire handlers mutate a per-applicant dictionary
(`context.user_data`), the moderation handlers mutate a process-wide
pending-rejection dictionary (`context.bot_data["pending_reason"]`) keyed by
moderator id.  Outbound Telegram calls (`reply_text`, `send_message`,
`edit_message_text`, `query.answer`) are recorded as a list of `Effect`s; a
call wrapped in `try/except` in the source takes a boolean delivery oracle
where a branch depends on its outcome.  Unguarded outbound calls are modelled
as succeeding (their failure aborts the handler inside the framework and is
outside the modelled behaviour).  Machine integers are `Int` (Python ints are
unbounded).
-/

namespace Bot

/-- Per-applicant `context.user_data` dictionary.  One optional field per key
the source ever stores (`"age"`, `"experience"`, `"finance"`, `"source"`,
`"next_question"`, `"application_submitted"`); `none` means the key is absent.
For `next_question` the inner `Option Nat` is the stored value, which the
source sets to Python `None` (here `some none`) after the final answer. -/
structure UserData where
  age : Option String := none
  experience : Option String := none
  finance : Option String := none
  source : Option String := none
  next_question : Option (Option Nat) := none
  application_submitted : Option Bool := none
deriving Repr, DecidableEq

/-- A fresh `context.user_data`: the empty dictionary. -/
def emptyUserData : UserData := {}

/-- The two environment settings the handlers read (`os.getenv` result:
`none` means the variable is unset). -/
structure Config where
  MOD_CHAT_ID : Option String := none
  CHANNEL_LINK : Option String := none
deriving Repr, DecidableEq

/-- Python truthiness filter for an optional string (`if not chat_id:`):
an absent variable and the empty string are both falsy. -/
def strTruthy : Option String → Option String
  | none => none
  | some s => if s = "" then none else some s

/-- Value of a digit string (most significant first); `none` on any
non-digit. -/
def digitsVal (l : List Char) : Option Nat :=
  l.foldl
    (fun acc c =>
      match acc with
      | none => none
      | some n => if c.isDigit then some (10 * n + (c.toNat - 48)) else none)
    (some 0)

/-- Models Python `int(s)` on the strings this bot handles: an optional sign
followed by one or more ASCII digits.  (Python additionally accepts
surrounding whitespace and underscore separators; the bot's payloads are
bot-generated `action:<digits>` strings and never carry those.) -/
def pyInt (s : String) : Option Int :=
  match s.toList with
  | [] => none
  | '-' :: rest =>
    if rest = [] then none else (digitsVal rest).map fun n => -(n : Int)
  | '+' :: rest =>
    if rest = [] then none else (digitsVal rest).map fun n => (n : Int)
  | l => (digitsVal l).map fun n => (n : Int)

/-- One entry of `context.bot_data["pending_reason"]`: the dictionary
`{"user_id": ..., "original_message_id": ...}` stored under a moderator id. -/
structure PendingSlot where
  user_id : Int
  original_message_id : Int
deriving Repr, DecidableEq

/-- The `context.bot_data["pending_reason"]` dictionary, keyed by moderator
id.  Represented as an association list; the Python dict keeps keys unique,
which is the `keysNodup` invariant below. -/
abbrev PendingTable := List (Int × PendingSlot)

/-- Dictionary lookup `pending.get(moderator_id)`. -/
def ptLookup : PendingTable → Int → Option PendingSlot
  | [], _ => none
  | (k, v) :: rest, m => if k = m then some v else ptLookup rest m

/-- Dictionary assignment `pending[moderator_id] = slot` (overwrites any
existing entry for that key). -/
def ptInsert : PendingTable → Int → PendingSlot → PendingTable
  | [], m, s => [(m, s)]
  | (k, v) :: rest, m, s =>
    if k = m then (m, s) :: rest else (k, v) :: ptInsert rest m s

/-- Dictionary removal `pending.pop(moderator_id, None)`. -/
def ptErase : PendingTable → Int → PendingTable
  | [], _ => []
  | (k, v) :: rest, m => if k = m then rest else (k, v) :: ptErase rest m

/-- The Python-dict representation invariant: keys occur at most once. -/
def keysNodup (p : PendingTable) : Prop := (p.map Prod.fst).Nodup

/-- Outbound Telegram calls made by the handlers. -/
inductive Effect where
  /-- `message.reply_text(text)` back to the chat the event came from. -/
  | reply (text : String)
  /-- `bot.send_message` of the compiled application to the moderator chat. -/
  | sendApplication (chatId : Int) (applicant : Int) (record : List String)
  /-- `bot.send_message(chat_id=user_id, text=...)` to an applicant. -/
  | notifyUser (chatId : Int) (text : String)
  /-- `query.answer()` acknowledging a callback. -/
  | ack
  /-- `query.edit_message_text(text)` on the callback's own message. -/
  | editCallbackMessage (messageId : Int) (text : String)
  /-- `bot.edit_message_text(chat_id, message_id, text)`. -/
  | editModMessage (chatId : Int) (messageId : Int) (text : String)
deriving Repr, DecidableEq

/-- The welcome message sent by `/start`. -/
def greetingText : String :=
  "Приветствуем тебя! С тобой бот Keepers Team.\n\n" ++
  "Мы открыли набор в нашу команду, работающую в сфере NFT‑подарков через Telegram.\n" ++
  "Уже сейчас ты можешь начать зарабатывать на одном из самых перспективных направлений\n\n" ++
  "🔺 Мы предлагаем одни из лучших условий на рынке:\n\n" ++
  "— 60% от оценки скупа — твоя чистая прибыль.\n" ++
  "Для ТОП‑воркеров предусмотрен индивидуальный процент и бонусные условия.\n\n" ++
  "— Пошаговые мануалы, основанные на реальном опыте.\n" ++
  "Также доступны обучающие методички\n\n" ++
  "— Постоянная поддержка от ТОПОВ\n\n" ++
  "📈 Благодаря нашей системе распределения процентов ты сможешь выстроить пассивный доход без ограничений — всё зависит только от твоего желания и активности.\n\n" ++
  "👥 Уже создавал или планируешь собрать собственную команду?\n" ++
  "Для филиалов и опытных воркеров — особые условия сотрудничества и поддержка на старте."

/-- Prompt of question 1 (asked by `/start`). -/
def question1Text : String := "Сколько вам лет?"

/-- Prompt of question 2. -/
def question2Text : String :=
  "Уже работал в этой сфере?  Если да — где и с каким капиталом?\n" ++
  "Если нет — расскажи, в каких сферах у тебя был опыт\n" ++
  "(Одним сообщением)"

/-- Prompt of question 3. -/
def question3Text : String := "Готовы ли вы вложить 10–35 $ на оплату расходников?"

/-- Prompt of question 4. -/
def question4Text : String :=
  "Ссылка на форум или источник, откуда вы о нас узнали\n" ++
  "(Одним сообщением)"

/-- Prompt of question `k` (1-based). -/
def promptOf : Nat → String
  | 1 => question1Text
  | 2 => question2Text
  | 3 => question3Text
  | 4 => question4Text
  | _ => ""

/-- Reminder sent when a submitted applicant writes again. -/
def reminderText : String :=
  "Ваша заявка отправлена на рассмотрение. Ментор ответит вам, как только примет решение."

/-- Reply of the fallback branch of `handle_message`. -/
def unexpectedText : String :=
  "Неожиданный ввод. Пожалуйста, удалите переписку с ботом и начните заново командой /start."

/-- Retry-later reply sent when forwarding the application raises. -/
def dispatchFailedText : String :=
  "Произошла ошибка при отправке заявки. Пожалуйста, попробуйте позже."

/-- Acceptance message sent to the applicant (with the channel link). -/
def acceptText (link : String) : String :=
  "Удачной игры!\n#blood_play 🩸🎮\n\n" ++ link

/-- Edit of the moderation record after acceptance. -/
def acceptedEditText (uid : Int) : String :=
  "Заявка от пользователя " ++ toString uid ++ " принята."

/-- Edit of the moderation record when a reject button is pressed. -/
def rejectPromptText (uid : Int) : String :=
  "Отклонить заявку пользователя " ++ toString uid ++ ".\n" ++
  "Пожалуйста, напишите причину отказа одним сообщением."

/-- Edit of the moderation record once the rejection reason is relayed. -/
def rejectedEditText (uid : Int) : String :=
  "Заявка пользователя " ++ toString uid ++ " отклонена."

/-- Rejection notice sent to the applicant. -/
def rejectionNoticeText (reason : String) : String :=
  "Ваша заявка была отклонена. Причина:\n" ++ reason ++
  "\n\nЕсли вы хотите подать заявку повторно, удалите переписку с ботом и начните сначала.\n" ++
  "(Если бот не отвечает — убедитесь, что он не в чёрном списке.)"

/-- The `/start` handler: clears `user_data`, greets, asks question 1, and
resets the questionnaire cursor (`next_question = 1`,
`application_submitted = False`). -/
def start (_d : UserData) : UserData × List Effect :=
  ({ age := none, experience := none, finance := none, source := none,
     next_question := some (some 1), application_submitted := some false },
   [Effect.reply greetingText, Effect.reply question1Text])

/-- The session produced by `/start`. -/
def startedUserData : UserData := (start emptyUserData).1

/-- `context.user_data.get("next_question", 1)`: the default `1` applies only
when the key is absent; a stored Python `None` is returned as is. -/
def getNextQuestion (d : UserData) : Option Nat :=
  match d.next_question with
  | none => some 1
  | some v => v

/-- The four answers as formatted into the moderation record,
`user_data.get(KEY, "—")` for each questionnaire key. -/
def applicationRecord (d : UserData) : List String :=
  [d.age.getD "—", d.experience.getD "—", d.finance.getD "—", d.source.getD "—"]

/-- `send_application_to_moderators`: if `MOD_CHAT_ID` is unset (or empty) the
failure is only logged; otherwise `int(chat_id)` and the send are attempted
inside `try/except`, and on failure the applicant gets the retry-later
reply. -/
def send_application_to_moderators (cfg : Config) (deliveryOk : Bool)
    (uid : Int) (d : UserData) : List Effect :=
  match strTruthy cfg.MOD_CHAT_ID with
  | none => []
  | some cid =>
    match pyInt cid with
    | none => [Effect.reply dispatchFailedText]
    | some c =>
      if deliveryOk then
        [Effect.sendApplication c uid (applicationRecord d)]
      else
        [Effect.sendApplication c uid (applicationRecord d),
         Effect.reply dispatchFailedText]

/-- `handle_message`: one private text message from applicant `uid` holding
`text`.  Mirrors the source branch for branch; in the fourth branch the
answer is stored before the dispatch, then the cursor is set to Python `None`
and the submitted flag to `True` (the dispatch never raises out of its own
handler). -/
def handle_message (cfg : Config) (deliveryOk : Bool) (uid : Int)
    (d : UserData) (text : String) : UserData × List Effect :=
  if d.application_submitted = some true then
    (d, [Effect.reply reminderText])
  else
    match getNextQuestion d with
    | some 1 =>
      ({ d with age := some text.trim, next_question := some (some 2) },
       [Effect.reply question2Text])
    | some 2 =>
      ({ d with experience := some text.trim, next_question := some (some 3) },
       [Effect.reply question3Text])
    | some 3 =>
      ({ d with finance := some text.trim, next_question := some (some 4) },
       [Effect.reply question4Text])
    | some 4 =>
      let d1 := { d with source := some text.trim }
      ({ d1 with next_question := some none, application_submitted := some true },
       send_application_to_moderators cfg deliveryOk uid d1)
    | _ => (d, [Effect.reply unexpectedText])

/-- The answer store viewed as a map from question index to answer text:
key `k` of the spec corresponds to the `k`-th questionnaire dictionary key. -/
def UserData.answer (d : UserData) : Nat → Option String
  | 1 => d.age
  | 2 => d.experience
  | 3 => d.finance
  | 4 => d.source
  | _ => none

/-- One applicant-side event: the `/start` command or a private text. -/
inductive UEvent where
  | ustart
  | umsg (text : String)
deriving Repr, DecidableEq

/-- The session mutation of one applicant event.  The state component of
`handle_message` does not depend on the configuration, the delivery outcome
or the applicant id, so fixed values are used (see `handle_message_fst`). -/
def uStep (d : UserData) : UEvent → UserData
  | UEvent.ustart => (start d).1
  | UEvent.umsg t => (handle_message {} true 0 d t).1

/-- Run a list of applicant events from a session. -/
def runU (d : UserData) (es : List UEvent) : UserData := es.foldl uStep d

/-- Sessions reachable from a fresh `user_data` dictionary. -/
def ReachableU (d : UserData) : Prop := ∃ es : List UEvent, runU emptyUserData es = d

/-- Rank of the questionnaire cursor: absent key counts as 1 (the `get`
default), an integer counts as itself, the Python `None` end marker counts
as N + 1 = 5. -/
def rank (d : UserData) : Nat :=
  match d.next_question with
  | none => 1
  | some none => 5
  | some (some k) => k

/-- Reachability invariant of an applicant session: the cursor rank stays in
`[1, 5]`, rank 5 is exactly the Python-`None` marker, the submitted flag is
`True` exactly at the marker, and every question strictly below the cursor
has a recorded answer. -/
def Inv (d : UserData) : Prop :=
  1 ≤ rank d ∧ rank d ≤ 5 ∧
  (rank d = 5 → d.next_question = some none) ∧
  (d.application_submitted = some true ↔ d.next_question = some none) ∧
  (2 ≤ rank d → d.age.isSome = true) ∧
  (3 ≤ rank d → d.experience.isSome = true) ∧
  (4 ≤ rank d → d.finance.isSome = true) ∧
  (5 ≤ rank d → d.source.isSome = true)

/-- Channel link used on acceptance: `os.getenv("CHANNEL_LINK")` degraded to
the empty string when unset or empty. -/
def channelLinkOrEmpty (cfg : Config) : String :=
  match strTruthy cfg.CHANNEL_LINK with
  | none => ""
  | some s => s

/-- `handle_accept`: notify the applicant (failure only logged) and edit the
moderation record; no state is read or written. -/
def handle_accept (cfg : Config) (user_id : Int) (message_id : Int) : List Effect :=
  [Effect.notifyUser user_id (acceptText (channelLinkOrEmpty cfg)),
   Effect.editCallbackMessage message_id (acceptedEditText user_id)]

/-- `handle_reject`: store the pending slot under the moderator id
(dictionary assignment, so a previous slot of the same moderator is
overwritten) and replace the record's buttons by the reason prompt. -/
def handle_reject (p : PendingTable) (moderator_id : Int) (message_id : Int)
    (user_id : Int) : PendingTable × List Effect :=
  (ptInsert p moderator_id ⟨user_id, message_id⟩,
   [Effect.editCallbackMessage message_id (rejectPromptText user_id)])

/-- One callback query event: its payload, the chat the pressed message lives
in (`none` when the update carries no message), the pressing moderator and
the message id. -/
structure CallbackEvent where
  data : String
  origin_chat : Option String
  moderator_id : Int
  message_id : Int
deriving Repr, DecidableEq

/-- Split a character list at its first colon. -/
def breakOnColon : List Char → Option (List Char × List Char)
  | [] => none
  | c :: rest =>
    if c = ':' then some ([], rest)
    else
      match breakOnColon rest with
      | none => none
      | some (a, b) => some (c :: a, b)

/-- Python `data.split(":", 1)` followed by unpacking into two names: the
part before the first colon and the rest; fails (`ValueError`) when the
separator is absent. -/
def pySplitFirst (s : String) : Option (String × String) :=
  match breakOnColon s.toList with
  | none => none
  | some (a, b) => some (String.mk a, String.mk b)

/-- Tail of `handle_moderator_callback` after the origin check: parse the
applicant id and dispatch on the action tag. -/
def callbackAfterOrigin (cfg : Config) (p : PendingTable) (ev : CallbackEvent)
    (action : String) (user_id_str : String) : PendingTable × List Effect :=
  match pyInt user_id_str with
  | none => (p, [Effect.ack])
  | some target =>
    if action = "accept" then
      (p, Effect.ack :: handle_accept cfg target ev.message_id)
    else if action = "reject" then
      let r := handle_reject p ev.moderator_id ev.message_id target
      (r.1, Effect.ack :: r.2)
    else
      (p, [Effect.ack])

/-- `handle_moderator_callback`: acknowledge, split the payload, check the
configured moderation chat and the origin chat, then dispatch.  Every early
`return` of the source leaves the pending table untouched and emits only the
acknowledgement. -/
def handle_moderator_callback (cfg : Config) (p : PendingTable)
    (ev : CallbackEvent) : PendingTable × List Effect :=
  match pySplitFirst ev.data with
  | none => (p, [Effect.ack])
  | some (action, user_id_str) =>
    match strTruthy cfg.MOD_CHAT_ID with
    | none => (p, [Effect.ack])
    | some env =>
      match ev.origin_chat with
      | some oc =>
        if oc = env then callbackAfterOrigin cfg p ev action user_id_str
        else (p, [Effect.ack])
      | none => callbackAfterOrigin cfg p ev action user_id_str

/-- `handle_moderator_message`: a text from a moderator in the moderation
chat.  With no pending slot it is ignored; otherwise the trimmed text is
relayed to the applicant (delivery failure only logged: `deliveryOk` is
unused), the record is edited when `MOD_CHAT_ID` is set and parses, and the
slot is popped. -/
def handle_moderator_message (cfg : Config) (deliveryOk : Bool)
    (p : PendingTable) (moderator_id : Int) (text : String) :
    PendingTable × List Effect :=
  match ptLookup p moderator_id with
  | none => (p, [])
  | some pending =>
    let reason_text := text.trim
    let edits :=
      match strTruthy cfg.MOD_CHAT_ID with
      | none => []
      | some env =>
        match pyInt env with
        | none => []
        | some c =>
          [Effect.editModMessage c pending.original_message_id
             (rejectedEditText pending.user_id)]
    (ptErase p moderator_id,
     Effect.notifyUser pending.user_id (rejectionNoticeText reason_text) :: edits)

instance instDecidableInv (d : UserData) : Decidable (Inv d) := by
  unfold Inv
  infer_instance

instance instDecidableKeysNodup (p : PendingTable) : Decidable (keysNodup p) := by
  unfold keysNodup
  infer_instance

/-- The whole mutable state of the process: the per-applicant sessions and
the pending-rejection table. -/
structure BotState where
  sessions : List (Int × UserData)
  pending : PendingTable
deriving Repr, DecidableEq

/-- A callback event acting on the whole bot state: the source handler never
reads or writes any applicant session, so only the pending table can move. -/
def callbackStep (cfg : Config) (st : BotState) (ev : CallbackEvent) :
    BotState × List Effect :=
  let r := handle_moderator_callback cfg st.pending ev
  ({ st with pending := r.1 }, r.2)

/-! ## General lemmas -/

/-- The session mutation of `handle_message` does not depend on the
configuration, the delivery outcome or the applicant id. -/
theorem handle_message_fst (cfg : Config) (ok : Bool) (uid : Int)
    (d : UserData) (t : String) :
    (handle_message cfg ok uid d t).1 = uStep d (UEvent.umsg t) := by
  by_cases h : d.application_submitted = some true
  · simp [handle_message, h, uStep]
  · rcases hnq : d.next_question with _ | (_ | (_ | (_ | (_ | (_ | (_ | k)))))) <;>
      simp [handle_message, h, uStep, getNextQuestion, hnq]

/-- If the cursor `get` returns an integer, the rank equals it. -/
theorem rank_eq_of_getNextQuestion (d : UserData) (k : Nat)
    (h : getNextQuestion d = some k) : rank d = k := by
  unfold getNextQuestion at h
  unfold rank
  rcases hnq : d.next_question with _ | (_ | j) <;> rw [hnq] at h <;> simp_all

/-- On a submitted session (by the invariant), the cursor `get` returns the
Python `None` marker, not an integer. -/
theorem getNextQuestion_of_submitted (d : UserData) (h : Inv d)
    (hs : d.application_submitted = some true) : getNextQuestion d = none := by
  obtain ⟨-, -, -, h4, -⟩ := h
  unfold getNextQuestion
  rw [h4.mp hs]

/-- Each applicant event preserves the session invariant. -/
theorem inv_handle_message (cfg : Config) (ok : Bool) (uid : Int)
    (d : UserData) (t : String) (h : Inv d) :
    Inv (handle_message cfg ok uid d t).1 := by
  obtain ⟨h1, h2, h3, h4, h5, h6, h7, h8⟩ := h
  unfold handle_message
  split
  · exact ⟨h1, h2, h3, h4, h5, h6, h7, h8⟩
  rename_i hs
  split
  · rename_i hq
    refine ⟨by norm_num [rank], by norm_num [rank], by norm_num [rank],
      by simp [hs], by simp, by norm_num [rank], by norm_num [rank],
      by norm_num [rank]⟩
  · rename_i hq
    have hr : rank d = 2 := rank_eq_of_getNextQuestion d 2 hq
    have hage : d.age.isSome = true := h5 (by omega)
    refine ⟨by norm_num [rank], by norm_num [rank], by norm_num [rank],
      by simp [hs], fun _ => hage, by simp, by norm_num [rank],
      by norm_num [rank]⟩
  · rename_i hq
    have hr : rank d = 3 := rank_eq_of_getNextQuestion d 3 hq
    have hage : d.age.isSome = true := h5 (by omega)
    have hexp : d.experience.isSome = true := h6 (by omega)
    refine ⟨by norm_num [rank], by norm_num [rank], by norm_num [rank],
      by simp [hs], fun _ => hage, fun _ => hexp, by simp,
      by norm_num [rank]⟩
  · rename_i hq
    have hr : rank d = 4 := rank_eq_of_getNextQuestion d 4 hq
    have hage : d.age.isSome = true := h5 (by omega)
    have hexp : d.experience.isSome = true := h6 (by omega)
    have hfin : d.finance.isSome = true := h7 (by omega)
    exact ⟨by norm_num [rank], by norm_num [rank], by simp, by simp,
      fun _ => hage, fun _ => hexp, fun _ => hfin, by simp⟩
  · exact ⟨h1, h2, h3, h4, h5, h6, h7, h8⟩

/-- Both applicant events preserve the session invariant. -/
theorem inv_uStep (d : UserData) (e : UEvent) (h : Inv d) : Inv (uStep d e) := by
  cases e with
  | ustart => exact (by decide : Inv (start emptyUserData).1)
  | umsg t => exact inv_handle_message {} true 0 d t h

/-- Every reachable session satisfies the invariant. -/
theorem reachable_inv (d : UserData) (h : ReachableU d) : Inv d := by
  obtain ⟨es, rfl⟩ := h
  have main : ∀ d0 : UserData, Inv d0 → Inv (runU d0 es) := by
    induction es with
    | nil => exact fun d0 h0 => h0
    | cons e es ih =>
      intro d0 h0
      have h1 : Inv (uStep d0 e) := inv_uStep d0 e h0
      simpa [runU, List.foldl_cons] using ih (uStep d0 e) h1
  exact main emptyUserData (by decide)

/-- A text message never decreases the cursor rank. -/
theorem rank_le_handle_message (cfg : Config) (ok : Bool) (uid : Int)
    (d : UserData) (t : String) :
    rank d ≤ rank (handle_message cfg ok uid d t).1 := by
  unfold handle_message
  split
  · exact le_refl _
  split
  · rename_i hq
    rw [rank_eq_of_getNextQuestion d 1 hq]
    norm_num [rank]
  · rename_i hq
    rw [rank_eq_of_getNextQuestion d 2 hq]
    norm_num [rank]
  · rename_i hq
    rw [rank_eq_of_getNextQuestion d 3 hq]
    norm_num [rank]
  · rename_i hq
    rw [rank_eq_of_getNextQuestion d 4 hq]
    norm_num [rank]
  · exact le_refl _

/-! ## Pending-table lemmas -/

/-- Dictionary assignment stores the new slot. -/
theorem ptLookup_ptInsert_self (p : PendingTable) (m : Int) (s : PendingSlot) :
    ptLookup (ptInsert p m s) m = some s := by
  induction p with
  | nil => simp [ptInsert, ptLookup]
  | cons kv rest ih =>
    obtain ⟨k, v⟩ := kv
    by_cases hk : k = m <;> simp [ptInsert, ptLookup, hk, ih]

/-- Dictionary assignment leaves other keys alone. -/
theorem ptLookup_ptInsert_ne (p : PendingTable) (m m2 : Int) (s : PendingSlot)
    (h : m2 ≠ m) : ptLookup (ptInsert p m s) m2 = ptLookup p m2 := by
  induction p with
  | nil => simp [ptInsert, ptLookup, Ne.symm h]
  | cons kv rest ih =>
    obtain ⟨k, v⟩ := kv
    by_cases hk : k = m
    · subst hk
      simp [ptInsert, ptLookup, Ne.symm h]
    · simp only [ptInsert, if_neg hk]
      by_cases hk2 : k = m2 <;> simp [ptLookup, hk2, ih]

/-- A key of the assigned table is the new key or an old key. -/
theorem mem_keys_ptInsert (p : PendingTable) (m : Int) (s : PendingSlot)
    (x : Int) (h : x ∈ (ptInsert p m s).map Prod.fst) :
    x = m ∨ x ∈ p.map Prod.fst := by
  induction p with
  | nil => simpa [ptInsert] using h
  | cons kv rest ih =>
    obtain ⟨k, v⟩ := kv
    by_cases hk : k = m
    · subst hk
      simpa [ptInsert] using h
    · simp only [ptInsert, if_neg hk, List.map_cons, List.mem_cons] at h
      rcases h with h | h
      · exact Or.inr (by simp [h])
      · rcases ih h with h2 | h2
        · exact Or.inl h2
        · exact Or.inr (by simp [h2])

/-- Dictionary assignment keeps the keys unique. -/
theorem keysNodup_ptInsert (p : PendingTable) (m : Int) (s : PendingSlot)
    (h : keysNodup p) : keysNodup (ptInsert p m s) := by
  induction p with
  | nil => simp [ptInsert, keysNodup]
  | cons kv rest ih =>
    obtain ⟨k, v⟩ := kv
    rw [keysNodup, List.map_cons, List.nodup_cons] at h
    obtain ⟨hknot, hrest⟩ := h
    by_cases hk : k = m
    · subst hk
      rw [show ptInsert ((k, v) :: rest) k s = (k, s) :: rest from by
        simp [ptInsert]]
      rw [keysNodup, List.map_cons, List.nodup_cons]
      exact ⟨hknot, hrest⟩
    · rw [show ptInsert ((k, v) :: rest) m s = (k, v) :: ptInsert rest m s from by
        simp [ptInsert, hk]]
      rw [keysNodup, List.map_cons, List.nodup_cons]
      refine ⟨fun hmem => ?_, ih hrest⟩
      rcases mem_keys_ptInsert rest m s ((k, v).1) hmem with h2 | h2
      · exact hk h2
      · exact hknot h2

/-- Looking up an absent key yields nothing. -/
theorem ptLookup_eq_none_of_not_mem (p : PendingTable) (m : Int)
    (h : m ∉ p.map Prod.fst) : ptLookup p m = none := by
  induction p with
  | nil => rfl
  | cons kv rest ih =>
    obtain ⟨k, v⟩ := kv
    simp only [List.map_cons, List.mem_cons, not_or] at h
    simp [ptLookup, Ne.symm h.1, ih h.2]

/-- Popping a key removes it (a pop, not a copy), given unique keys. -/
theorem ptLookup_ptErase_self (p : PendingTable) (m : Int) (h : keysNodup p) :
    ptLookup (ptErase p m) m = none := by
  induction p with
  | nil => rfl
  | cons kv rest ih =>
    obtain ⟨k, v⟩ := kv
    rw [keysNodup, List.map_cons, List.nodup_cons] at h
    obtain ⟨hknot, hrest⟩ := h
    by_cases hk : k = m
    · subst hk
      simpa [ptErase] using ptLookup_eq_none_of_not_mem rest k hknot
    · simp [ptErase, ptLookup, hk, ih hrest]

/-- Filtering an absent key yields nothing. -/
theorem filter_key_eq_nil_of_not_mem (p : PendingTable) (m : Int)
    (h : m ∉ p.map Prod.fst) : p.filter (fun e => e.1 == m) = [] := by
  induction p with
  | nil => rfl
  | cons kv rest ih =>
    obtain ⟨k, v⟩ := kv
    simp only [List.map_cons, List.mem_cons, not_or] at h
    simp [List.filter_cons, Ne.symm h.1, ih h.2]

/-- After a dictionary assignment exactly one entry carries the key. -/
theorem filter_ptInsert_length (p : PendingTable) (m : Int) (s : PendingSlot)
    (h : keysNodup p) :
    ((ptInsert p m s).filter (fun e => e.1 == m)).length = 1 := by
  induction p with
  | nil => simp [ptInsert]
  | cons kv rest ih =>
    obtain ⟨k, v⟩ := kv
    rw [keysNodup, List.map_cons, List.nodup_cons] at h
    obtain ⟨hknot, hrest⟩ := h
    by_cases hk : k = m
    · subst hk
      simp [ptInsert, List.filter_cons, filter_key_eq_nil_of_not_mem rest k hknot]
    · simp [ptInsert, hk, List.filter_cons, ih hrest]

/-- A callback whose handler leaves the pending table alone and only
acknowledges leaves the whole bot state alone. -/
theorem callbackStep_noop (cfg : Config) (st : BotState) (ev : CallbackEvent)
    (h : handle_moderator_callback cfg st.pending ev = (st.pending, [Effect.ack])) :
    callbackStep cfg st ev = (st, [Effect.ack]) := by
  simp [callbackStep, h]

/-- Every early `return` of `handle_moderator_callback` (malformed payload,
unparseable id, unknown action, or wrong origin chat) leaves the pending
table untouched and emits only the acknowledgement. -/
theorem hmc_drop (cfg : Config) (p : PendingTable) (ev : CallbackEvent)
    (h : pySplitFirst ev.data = none
      ∨ (∃ a u, pySplitFirst ev.data = some (a, u) ∧ pyInt u = none)
      ∨ (∃ a u, pySplitFirst ev.data = some (a, u) ∧ a ≠ "accept" ∧ a ≠ "reject")
      ∨ (∃ env oc, strTruthy cfg.MOD_CHAT_ID = some env ∧
          ev.origin_chat = some oc ∧ oc ≠ env)) :
    handle_moderator_callback cfg p ev = (p, [Effect.ack]) := by
  rcases h with h1 | ⟨a, u, hs, hu⟩ | ⟨a, u, hs, ha1, ha2⟩ | ⟨env, oc, he, ho, hne⟩
  · simp [handle_moderator_callback, h1]
  · rcases henv : strTruthy cfg.MOD_CHAT_ID with _ | env
    · simp [handle_moderator_callback, hs, henv]
    · rcases horig : ev.origin_chat with _ | oc
      · simp [handle_moderator_callback, hs, henv, horig, callbackAfterOrigin, hu]
      · by_cases hoc : oc = env <;>
          simp [handle_moderator_callback, hs, henv, horig, callbackAfterOrigin,
            hu, hoc]
  · rcases henv : strTruthy cfg.MOD_CHAT_ID with _ | env
    · simp [handle_moderator_callback, hs, henv]
    · rcases hu : pyInt u with _ | target
      · rcases horig : ev.origin_chat with _ | oc
        · simp [handle_moderator_callback, hs, henv, horig, callbackAfterOrigin, hu]
        · by_cases hoc : oc = env <;>
            simp [handle_moderator_callback, hs, henv, horig, callbackAfterOrigin,
              hu, hoc]
      · rcases horig : ev.origin_chat with _ | oc
        · simp [handle_moderator_callback, hs, henv, horig, callbackAfterOrigin,
            hu, ha1, ha2]
        · by_cases hoc : oc = env <;>
            simp [handle_moderator_callback, hs, henv, horig, callbackAfterOrigin,
              hu, hoc, ha1, ha2]
  · rcases hs : pySplitFirst ev.data with _ | au
    · simp [handle_moderator_callback, hs]
    · obtain ⟨a, u⟩ := au
      simp [handle_moderator_callback, hs, he, ho, hne]

/-- Outside the question indices 1..4 the answer store holds nothing,
whatever the session. -/
theorem answer_none_outside (d : UserData) (k : Nat)
    (hk : ¬(1 ≤ k ∧ k ≤ 4)) : d.answer k = none := by
  match k with
  | 0 => rfl
  | 1 => exact absurd ⟨by omega, by omega⟩ hk
  | 2 => exact absurd ⟨by omega, by omega⟩ hk
  | 3 => exact absurd ⟨by omega, by omega⟩ hk
  | 4 => exact absurd ⟨by omega, by omega⟩ hk
  | (n + 5) => rfl

/-! ## Claim theorems -/

/-- C1 counterexample: handling the concrete event sequence begin, "a", "b",
begin drops the cursor from 3 back to 1 (so it is not monotonically
non-decreasing across handled events), and after the final answer of a full
run the cursor is the stored Python `None` marker — not an integer in
`[1, N+1]`. -/
theorem C1_counterexample :
    (runU emptyUserData
        [UEvent.ustart, UEvent.umsg "a", UEvent.umsg "b"]).next_question
      = some (some 3) ∧
    (runU emptyUserData
        [UEvent.ustart, UEvent.umsg "a", UEvent.umsg "b",
         UEvent.ustart]).next_question = some (some 1) ∧
    (runU emptyUserData
        [UEvent.ustart, UEvent.umsg "a", UEvent.umsg "b", UEvent.umsg "c",
         UEvent.umsg "d"]).next_question = some none :=
  ⟨rfl, rfl, rfl⟩

/-- C1 (amended): for every reachable session the cursor rank (absent key
counts as 1, an integer as itself, the Python `None` completion marker as
N + 1 = 5) lies in `[1, N+1]`; once submitted the cursor is the `None`
marker, not the integer N + 1; a text-message event never decreases the
rank; a begin command resets it to 1. -/
theorem C1_cursor_amended (d : UserData) (h : ReachableU d) :
    (1 ≤ rank d ∧ rank d ≤ 5) ∧
    (d.application_submitted = some true → d.next_question = some none) ∧
    (∀ t : String, rank d ≤ rank (uStep d (UEvent.umsg t))) ∧
    rank (uStep d UEvent.ustart) = 1 := by
  obtain ⟨h1, h2, -, h4, -⟩ := reachable_inv d h
  exact ⟨⟨h1, h2⟩, fun hs => h4.mp hs,
    fun t => rank_le_handle_message {} true 0 d t, rfl⟩

/-- C1 witness: the amended statement holds at the session produced by a
begin command. -/
theorem C1_cursor_amended_witness :
    (1 ≤ rank startedUserData ∧ rank startedUserData ≤ 5) ∧
    (startedUserData.application_submitted = some true →
      startedUserData.next_question = some none) ∧
    rank startedUserData ≤ rank (uStep startedUserData (UEvent.umsg "21")) ∧
    rank (uStep startedUserData UEvent.ustart) = 1 := by
  have h := C1_cursor_amended startedUserData ⟨[UEvent.ustart], rfl⟩
  exact ⟨h.1, h.2.1, h.2.2.1 "21", h.2.2.2⟩

/-- C2 (confirmed): a reachable session with the submitted flag set has an
answer recorded exactly for the question indices 1..4 — all four present,
nothing outside. -/
theorem C2_submitted_four_answers (d : UserData) (h : ReachableU d)
    (hs : d.application_submitted = some true) :
    ∀ k : Nat, (d.answer k).isSome = true ↔ (1 ≤ k ∧ k ≤ 4) := by
  obtain ⟨-, -, -, h4, h5, h6, h7, h8⟩ := reachable_inv d h
  have hnq : d.next_question = some none := h4.mp hs
  have hr : rank d = 5 := by simp [rank, hnq]
  have ha := h5 (by omega)
  have hb := h6 (by omega)
  have hc := h7 (by omega)
  have hd := h8 (by omega)
  intro k
  constructor
  · intro hsome
    by_contra hk
    rw [answer_none_outside d k hk] at hsome
    simp at hsome
  · rintro ⟨hk1, hk4⟩
    interval_cases k
    · simpa [UserData.answer] using ha
    · simpa [UserData.answer] using hb
    · simpa [UserData.answer] using hc
    · simpa [UserData.answer] using hd

/-- C2 witness: a full concrete run is submitted and has its fourth answer
recorded. -/
theorem C2_submitted_four_answers_witness :
    ((runU emptyUserData
        [UEvent.ustart, UEvent.umsg "21", UEvent.umsg "none",
         UEvent.umsg "yes", UEvent.umsg "forum"]).answer 4).isSome = true ↔
      (1 ≤ 4 ∧ 4 ≤ 4) :=
  C2_submitted_four_answers
    (runU emptyUserData
      [UEvent.ustart, UEvent.umsg "21", UEvent.umsg "none",
       UEvent.umsg "yes", UEvent.umsg "forum"])
    ⟨[UEvent.ustart, UEvent.umsg "21", UEvent.umsg "none",
      UEvent.umsg "yes", UEvent.umsg "forum"], rfl⟩ rfl 4

/-- C3 (confirmed): with moderator `m` awaiting a reason (unique keys, the
dict representation invariant), the next moderation-chat text from `m` sends
exactly one rejection notice carrying the trimmed text, edits the original
record, and pops the slot — the outcome is the same term whether or not the
notice delivery succeeds (`ok` is arbitrary), and a following text from `m`
is a no-op because the slot is gone. -/
theorem C3_rejection_reason_flow (cfg : Config) (ok ok2 : Bool)
    (p : PendingTable) (m : Int) (t t2 : String) (slot : PendingSlot)
    (env : String) (c : Int)
    (hn : keysNodup p) (hp : ptLookup p m = some slot)
    (he : strTruthy cfg.MOD_CHAT_ID = some env) (hc : pyInt env = some c) :
    handle_moderator_message cfg ok p m t =
      (ptErase p m,
       [Effect.notifyUser slot.user_id (rejectionNoticeText t.trim),
        Effect.editModMessage c slot.original_message_id
          (rejectedEditText slot.user_id)]) ∧
    ptLookup (handle_moderator_message cfg ok p m t).1 m = none ∧
    handle_moderator_message cfg ok2 (handle_moderator_message cfg ok p m t).1 m t2
      = ((handle_moderator_message cfg ok p m t).1, []) := by
  have hmain : handle_moderator_message cfg ok p m t =
      (ptErase p m,
       [Effect.notifyUser slot.user_id (rejectionNoticeText t.trim),
        Effect.editModMessage c slot.original_message_id
          (rejectedEditText slot.user_id)]) := by
    simp [handle_moderator_message, hp, he, hc]
  have hnone : ptLookup (ptErase p m) m = none := ptLookup_ptErase_self p m hn
  refine ⟨hmain, ?_, ?_⟩
  · rw [hmain]
    exact hnone
  · rw [hmain]
    simp [handle_moderator_message, hnone]

/-- C3 witness: concrete moderator 7 awaiting a reason for applicant 42. -/
theorem C3_rejection_reason_flow_witness :
    handle_moderator_message { MOD_CHAT_ID := some "10", CHANNEL_LINK := none }
        false [(7, ⟨42, 99⟩)] 7 " too young " =
      (ptErase [(7, ⟨42, 99⟩)] 7,
       [Effect.notifyUser 42 (rejectionNoticeText (" too young ").trim),
        Effect.editModMessage 10 99 (rejectedEditText 42)]) ∧
    ptLookup (handle_moderator_message
        { MOD_CHAT_ID := some "10", CHANNEL_LINK := none }
        false [(7, ⟨42, 99⟩)] 7 " too young ").1 7 = none ∧
    handle_moderator_message { MOD_CHAT_ID := some "10", CHANNEL_LINK := none }
        true (handle_moderator_message
          { MOD_CHAT_ID := some "10", CHANNEL_LINK := none }
          false [(7, ⟨42, 99⟩)] 7 " too young ").1 7 "again"
      = ((handle_moderator_message
          { MOD_CHAT_ID := some "10", CHANNEL_LINK := none }
          false [(7, ⟨42, 99⟩)] 7 " too young ").1, []) :=
  C3_rejection_reason_flow { MOD_CHAT_ID := some "10", CHANNEL_LINK := none }
    false true [(7, ⟨42, 99⟩)] 7 " too young " "again" ⟨42, 99⟩ "10" 10
    (by decide) rfl rfl (by decide)

/-- C4 counterexample: with `MOD_CHAT_ID` unset, completing the questionnaire
emits no outbound message at all — in particular the applicant does not
receive the generic retry-later notice the claim promises for a
missing-configuration dispatch failure; the session is still submitted. -/
theorem C4_counterexample :
    (handle_message { MOD_CHAT_ID := none, CHANNEL_LINK := none } true 5
        (runU emptyUserData
          [UEvent.ustart, UEvent.umsg "a", UEvent.umsg "b", UEvent.umsg "c"])
        "d").2 = [] ∧
    ((handle_message { MOD_CHAT_ID := none, CHANNEL_LINK := none } true 5
        (runU emptyUserData
          [UEvent.ustart, UEvent.umsg "a", UEvent.umsg "b", UEvent.umsg "c"])
        "d").1).application_submitted = some true :=
  ⟨rfl, rfl⟩

/-- C4 (amended): when the fourth answer completes a reachable questionnaire,
the session always ends submitted (for any delivery outcome); if the
moderation chat is configured and parses but the send fails, the applicant
receives the generic retry-later reply; if the moderation-chat configuration
is missing, the failure is only logged and no message is emitted at all. -/
theorem C4_dispatch_failure_amended (cfg : Config) (uid : Int) (d : UserData)
    (t : String) (h : ReachableU d) (h4 : getNextQuestion d = some 4) :
    (∀ ok : Bool,
      ((handle_message cfg ok uid d t).1).application_submitted = some true) ∧
    (∀ env : String, ∀ c : Int,
      strTruthy cfg.MOD_CHAT_ID = some env → pyInt env = some c →
      (handle_message cfg false uid d t).2 =
        [Effect.sendApplication c uid
           (applicationRecord { d with source := some t.trim }),
         Effect.reply dispatchFailedText]) ∧
    (strTruthy cfg.MOD_CHAT_ID = none →
      (handle_message cfg false uid d t).2 = []) := by
  have hinv := reachable_inv d h
  have hs : ¬ d.application_submitted = some true := by
    intro hsub
    rw [getNextQuestion_of_submitted d hinv hsub] at h4
    exact Option.noConfusion h4
  refine ⟨fun ok => ?_, fun env c he hc => ?_, fun he => ?_⟩
  · simp [handle_message, hs, h4]
  · simp [handle_message, hs, h4, send_application_to_moderators, he, hc]
  · simp [handle_message, hs, h4, send_application_to_moderators, he]

/-- C4 witness: concrete failed dispatch with a configured moderation chat:
the session is submitted and the retry-later reply is emitted. -/
theorem C4_dispatch_failure_amended_witness :
    ((handle_message { MOD_CHAT_ID := some "10", CHANNEL_LINK := none } true 5
        (runU emptyUserData
          [UEvent.ustart, UEvent.umsg "a", UEvent.umsg "b", UEvent.umsg "c"])
        "d").1).application_submitted = some true ∧
    (handle_message { MOD_CHAT_ID := some "10", CHANNEL_LINK := none } false 5
        (runU emptyUserData
          [UEvent.ustart, UEvent.umsg "a", UEvent.umsg "b", UEvent.umsg "c"])
        "d").2 =
      [Effect.sendApplication 10 5
         (applicationRecord
           { runU emptyUserData
               [UEvent.ustart, UEvent.umsg "a", UEvent.umsg "b",
                UEvent.umsg "c"] with
             source := some ("d").trim }),
       Effect.reply dispatchFailedText] := by
  have h := C4_dispatch_failure_amended
    { MOD_CHAT_ID := some "10", CHANNEL_LINK := none } 5
    (runU emptyUserData
      [UEvent.ustart, UEvent.umsg "a", UEvent.umsg "b", UEvent.umsg "c"])
    "d"
    ⟨[UEvent.ustart, UEvent.umsg "a", UEvent.umsg "b", UEvent.umsg "c"], rfl⟩
    rfl
  exact ⟨h.1 true, h.2.1 "10" 10 rfl (by decide)⟩

/-- C5 (confirmed): a callback event that is malformed (no separator in the
payload, unparseable applicant id, or unknown action tag) or that originates
from a chat other than the configured moderation chat leaves the entire bot
state — every applicant session and the pending-rejection table — unchanged
and emits only the silent callback acknowledgement: no notification, reply
or edit. -/
theorem C5_bad_decision_dropped (cfg : Config) (st : BotState)
    (ev : CallbackEvent)
    (h : pySplitFirst ev.data = none
      ∨ (∃ a u, pySplitFirst ev.data = some (a, u) ∧ pyInt u = none)
      ∨ (∃ a u, pySplitFirst ev.data = some (a, u) ∧ a ≠ "accept" ∧ a ≠ "reject")
      ∨ (∃ env oc, strTruthy cfg.MOD_CHAT_ID = some env ∧
          ev.origin_chat = some oc ∧ oc ≠ env)) :
    callbackStep cfg st ev = (st, [Effect.ack]) :=
  callbackStep_noop cfg st ev (hmc_drop cfg st.pending ev h)

/-- C5 witness: a well-formed accept decision arriving from chat "11" while
the moderation chat is "10" is dropped without touching sessions or pending
slots. -/
theorem C5_bad_decision_dropped_witness :
    callbackStep { MOD_CHAT_ID := some "10", CHANNEL_LINK := none }
        ⟨[(3, startedUserData)], [(7, ⟨42, 99⟩)]⟩
        ⟨"accept:42", some "11", 8, 50⟩ =
      (⟨[(3, startedUserData)], [(7, ⟨42, 99⟩)]⟩, [Effect.ack]) :=
  C5_bad_decision_dropped { MOD_CHAT_ID := some "10", CHANNEL_LINK := none }
    ⟨[(3, startedUserData)], [(7, ⟨42, 99⟩)]⟩
    ⟨"accept:42", some "11", 8, 50⟩
    (Or.inr (Or.inr (Or.inr ⟨"10", "11", rfl, rfl, by decide⟩)))

/-- C6 (confirmed): an accept decision from the moderation chat is handled
statelessly: the bot state is returned unchanged (no per-moderator slot is
stored), exactly one approval notification is sent to the parsed applicant
id, and replaying the identical event produces the identical result again —
a second notification, with no deduplication. -/
theorem C6_accept_stateless (cfg : Config) (st : BotState) (ev : CallbackEvent)
    (uidStr : String) (uid : Int) (env : String)
    (hd : pySplitFirst ev.data = some ("accept", uidStr))
    (hu : pyInt uidStr = some uid)
    (he : strTruthy cfg.MOD_CHAT_ID = some env)
    (ho : ev.origin_chat = some env ∨ ev.origin_chat = none) :
    callbackStep cfg st ev =
      (st, [Effect.ack,
            Effect.notifyUser uid (acceptText (channelLinkOrEmpty cfg)),
            Effect.editCallbackMessage ev.message_id (acceptedEditText uid)]) ∧
    callbackStep cfg (callbackStep cfg st ev).1 ev = callbackStep cfg st ev := by
  have hmain : callbackStep cfg st ev =
      (st, [Effect.ack,
            Effect.notifyUser uid (acceptText (channelLinkOrEmpty cfg)),
            Effect.editCallbackMessage ev.message_id (acceptedEditText uid)]) := by
    rcases ho with ho | ho <;>
      simp [callbackStep, handle_moderator_callback, hd, he, ho,
        callbackAfterOrigin, hu, handle_accept]
  refine ⟨hmain, ?_⟩
  rw [hmain]
  exact hmain

/-- C6 witness: a concrete accept for applicant 42, replayed. -/
theorem C6_accept_stateless_witness :
    callbackStep { MOD_CHAT_ID := some "10", CHANNEL_LINK := some "L" }
        ⟨[], [(7, ⟨42, 99⟩)]⟩ ⟨"accept:42", some "10", 8, 50⟩ =
      (⟨[], [(7, ⟨42, 99⟩)]⟩,
       [Effect.ack,
        Effect.notifyUser 42 (acceptText (channelLinkOrEmpty
          { MOD_CHAT_ID := some "10", CHANNEL_LINK := some "L" })),
        Effect.editCallbackMessage 50 (acceptedEditText 42)]) ∧
    callbackStep { MOD_CHAT_ID := some "10", CHANNEL_LINK := some "L" }
        (callbackStep { MOD_CHAT_ID := some "10", CHANNEL_LINK := some "L" }
          ⟨[], [(7, ⟨42, 99⟩)]⟩ ⟨"accept:42", some "10", 8, 50⟩).1
        ⟨"accept:42", some "10", 8, 50⟩
      = callbackStep { MOD_CHAT_ID := some "10", CHANNEL_LINK := some "L" }
          ⟨[], [(7, ⟨42, 99⟩)]⟩ ⟨"accept:42", some "10", 8, 50⟩ :=
  C6_accept_stateless { MOD_CHAT_ID := some "10", CHANNEL_LINK := some "L" }
    ⟨[], [(7, ⟨42, 99⟩)]⟩ ⟨"accept:42", some "10", 8, 50⟩
    "42" 42 "10" (by decide) (by decide) rfl (Or.inl rfl)

/-- C7 (confirmed): on a session whose submitted flag is set, any further
text message returns exactly the fixed reminder and the session itself,
unchanged — no answer entry and no cursor movement. -/
theorem C7_post_submission_reminder (cfg : Config) (ok : Bool) (uid : Int)
    (d : UserData) (t : String) (hs : d.application_submitted = some true) :
    handle_message cfg ok uid d t = (d, [Effect.reply reminderText]) := by
  simp [handle_message, hs]

/-- C7 witness: a message after a full concrete run only triggers the
reminder. -/
theorem C7_post_submission_reminder_witness :
    handle_message { MOD_CHAT_ID := none, CHANNEL_LINK := none } true 5
        (runU emptyUserData
          [UEvent.ustart, UEvent.umsg "a", UEvent.umsg "b", UEvent.umsg "c",
           UEvent.umsg "d"]) "hello"
      = (runU emptyUserData
          [UEvent.ustart, UEvent.umsg "a", UEvent.umsg "b", UEvent.umsg "c",
           UEvent.umsg "d"], [Effect.reply reminderText]) :=
  C7_post_submission_reminder { MOD_CHAT_ID := none, CHANNEL_LINK := none }
    true 5
    (runU emptyUserData
      [UEvent.ustart, UEvent.umsg "a", UEvent.umsg "b", UEvent.umsg "c",
       UEvent.umsg "d"]) "hello" rfl

/-- C8 (confirmed): on a reachable session whose cursor is `k` with
`1 ≤ k < 4`, a text message stores the trimmed text under answer key `k`,
moves the cursor to `k + 1`, and replies with exactly the prompt of question
`k + 1`. -/
theorem C8_advance_stores_and_prompts (cfg : Config) (ok : Bool) (uid : Int)
    (d : UserData) (t : String) (k : Nat) (h : ReachableU d)
    (hk : getNextQuestion d = some k) (hk1 : 1 ≤ k) (hk4 : k < 4) :
    ((handle_message cfg ok uid d t).1).answer k = some t.trim ∧
    ((handle_message cfg ok uid d t).1).next_question = some (some (k + 1)) ∧
    (handle_message cfg ok uid d t).2 = [Effect.reply (promptOf (k + 1))] := by
  have hinv := reachable_inv d h
  have hs : ¬ d.application_submitted = some true := by
    intro hsub
    rw [getNextQuestion_of_submitted d hinv hsub] at hk
    exact Option.noConfusion hk
  interval_cases k
  · exact ⟨by simp [handle_message, hs, hk, UserData.answer],
      by simp [handle_message, hs, hk],
      by simp [handle_message, hs, hk, promptOf]⟩
  · exact ⟨by simp [handle_message, hs, hk, UserData.answer],
      by simp [handle_message, hs, hk],
      by simp [handle_message, hs, hk, promptOf]⟩
  · exact ⟨by simp [handle_message, hs, hk, UserData.answer],
      by simp [handle_message, hs, hk],
      by simp [handle_message, hs, hk, promptOf]⟩

/-- C8 witness: answering question 2 with " b " on a concrete session. -/
theorem C8_advance_stores_and_prompts_witness :
    ((handle_message { MOD_CHAT_ID := none, CHANNEL_LINK := none } true 3
        (runU emptyUserData [UEvent.ustart, UEvent.umsg "21"]) " b ").1).answer 2
      = some (" b ").trim ∧
    ((handle_message { MOD_CHAT_ID := none, CHANNEL_LINK := none } true 3
        (runU emptyUserData [UEvent.ustart, UEvent.umsg "21"]) " b ").1).next_question
      = some (some (2 + 1)) ∧
    (handle_message { MOD_CHAT_ID := none, CHANNEL_LINK := none } true 3
        (runU emptyUserData [UEvent.ustart, UEvent.umsg "21"]) " b ").2
      = [Effect.reply (promptOf (2 + 1))] :=
  C8_advance_stores_and_prompts { MOD_CHAT_ID := none, CHANNEL_LINK := none }
    true 3 (runU emptyUserData [UEvent.ustart, UEvent.umsg "21"]) " b " 2
    ⟨[UEvent.ustart, UEvent.umsg "21"], rfl⟩ rfl (by decide) (by decide)

/-- C9 (confirmed): starting from any pending table with unique keys, two
reject actions by the same moderator keep the keys unique, leave exactly one
entry for that moderator, that entry being the latest (applicant, record)
pair — the overwrite — and do not disturb any other moderator's slot. -/
theorem C9_pending_slot_overwrite (p : PendingTable) (m u1 u2 mid1 mid2 : Int)
    (hn : keysNodup p) :
    keysNodup (handle_reject (handle_reject p m mid1 u1).1 m mid2 u2).1 ∧
    ptLookup (handle_reject (handle_reject p m mid1 u1).1 m mid2 u2).1 m
      = some ⟨u2, mid2⟩ ∧
    ((handle_reject (handle_reject p m mid1 u1).1 m mid2 u2).1.filter
        (fun e => e.1 == m)).length = 1 ∧
    ∀ m2 : Int, m2 ≠ m →
      ptLookup (handle_reject (handle_reject p m mid1 u1).1 m mid2 u2).1 m2
        = ptLookup p m2 := by
  have hn1 : keysNodup (ptInsert p m ⟨u1, mid1⟩) :=
    keysNodup_ptInsert p m ⟨u1, mid1⟩ hn
  refine ⟨keysNodup_ptInsert (ptInsert p m ⟨u1, mid1⟩) m ⟨u2, mid2⟩ hn1,
    ptLookup_ptInsert_self (ptInsert p m ⟨u1, mid1⟩) m ⟨u2, mid2⟩,
    filter_ptInsert_length (ptInsert p m ⟨u1, mid1⟩) m ⟨u2, mid2⟩ hn1,
    fun m2 hm2 => ?_⟩
  rw [show (handle_reject (handle_reject p m mid1 u1).1 m mid2 u2).1
      = ptInsert (ptInsert p m ⟨u1, mid1⟩) m ⟨u2, mid2⟩ from rfl]
  rw [ptLookup_ptInsert_ne (ptInsert p m ⟨u1, mid1⟩) m m2 ⟨u2, mid2⟩ hm2]
  exact ptLookup_ptInsert_ne p m m2 ⟨u1, mid1⟩ hm2

/-- C9 witness: moderator 7 rejects twice before supplying a reason; only
the second pending pair survives and moderator 3's slot is untouched. -/
theorem C9_pending_slot_overwrite_witness :
    keysNodup (handle_reject (handle_reject [(3, ⟨8, 9⟩)] 7 11 1).1 7 12 2).1 ∧
    ptLookup (handle_reject (handle_reject [(3, ⟨8, 9⟩)] 7 11 1).1 7 12 2).1 7
      = some ⟨2, 12⟩ ∧
    ((handle_reject (handle_reject [(3, ⟨8, 9⟩)] 7 11 1).1 7 12 2).1.filter
        (fun e => e.1 == 7)).length = 1 ∧
    ptLookup (handle_reject (handle_reject [(3, ⟨8, 9⟩)] 7 11 1).1 7 12 2).1 3
      = ptLookup [(3, ⟨8, 9⟩)] 3 := by
  have h := C9_pending_slot_overwrite [(3, ⟨8, 9⟩)] 7 1 2 11 12 (by decide)
  exact ⟨h.1, h.2.1, h.2.2.1, h.2.2.2 3 (by decide)⟩

/-- C10 (confirmed): a first private text on a completely empty session (no
begin command ever handled, submitted flag not set) is taken as the answer
to question 1: the trimmed text is stored as the question-1 answer, the
cursor moves to 2, and the question-2 prompt is the only reply. -/
theorem C10_first_message_defaults (cfg : Config) (ok : Bool) (uid : Int)
    (t : String) :
    handle_message cfg ok uid emptyUserData t =
      ({ age := some t.trim, experience := none, finance := none,
         source := none, next_question := some (some 2),
         application_submitted := none },
       [Effect.reply question2Text]) := rfl

end Bot
